import Mathlib

/-!
Shallow embedding of the verification/moderation engine in
`src/bot/enhanced_bot.py` (class `AdvancedVerificationBot` and the
module-level `process_verification_request`), together with the IP-ban
commands in `src/bot/commands_continuation.py` that call into it.

Python dicts are modelled as association lists with Python's
assignment/lookup semantics (`dictSet` updates the first binding in place or
appends at the end, `alookup` finds the first binding, `dictErase` removes
the first binding).  Python's float arithmetic in `detect_vpn` only ever
produces the values 0, 0.2, 0.3, 0.5, 0.9, 1.1, 1.2 and 1.4 (sums of the
literal weights 0.9, 0.3 and 0.2, where 0.3 + 0.2 rounds to exactly 0.5 in
IEEE double), so every comparison with the threshold 0.5 agrees with exact
rational arithmetic and confidences are modelled as `Rat`.

The Python standard library `ipaddress` module is external to the
repository; the code only uses "does `ipaddress.ip_address(ip)` parse"
(`ValueError` branch) and the parsed address's `is_private` attribute, so
the library is modelled by the interface `IpLib` below, and a concrete
IPv4-faithful instance `ipv4Lib` is provided for evaluating concrete runs.
Likewise `hashlib.sha256` is external and `hash_ip` is passed as an
abstract `String → String` parameter.
-/

namespace Wasd

/-- First binding for a key in an association list (Python `d.get(k)` /
`k in d` / `d[k]`). -/
def alookup {κ α : Type} [DecidableEq κ] (k : κ) : List (κ × α) → Option α
  | [] => none
  | (k', v) :: rest => if k' = k then some v else alookup k rest

/-- Python dict assignment `d[k] = v`: replace the binding in place if the
key is present, otherwise append the new binding at the end. -/
def dictSet {κ α : Type} [DecidableEq κ] (k : κ) (v : α) :
    List (κ × α) → List (κ × α)
  | [] => [(k, v)]
  | (k', v') :: rest =>
      if k' = k then (k, v) :: rest else (k', v') :: dictSet k v rest

/-- Python dict deletion `del d[k]` (no-op when the key is absent, which the
callers below always guard against). -/
def dictErase {κ α : Type} [DecidableEq κ] (k : κ) :
    List (κ × α) → List (κ × α)
  | [] => []
  | (k', v') :: rest =>
      if k' = k then rest else (k', v') :: dictErase k rest

theorem alookup_dictSet_self {κ α : Type} [DecidableEq κ] (k : κ) (v : α)
    (d : List (κ × α)) : alookup k (dictSet k v d) = some v := by
  induction d with
  | nil => simp [dictSet, alookup]
  | cons e rest ih =>
      by_cases h : e.1 = k
      · simp [dictSet, alookup, h]
      · simp [dictSet, alookup, h, ih]

theorem alookup_dictSet_ne {κ α : Type} [DecidableEq κ] (k k' : κ) (v : α)
    (d : List (κ × α)) (hne : k' ≠ k) :
    alookup k' (dictSet k v d) = alookup k' d := by
  induction d with
  | nil => simp [dictSet, alookup, Ne.symm hne]
  | cons e rest ih =>
      obtain ⟨ek, ev⟩ := e
      by_cases h : ek = k
      · subst h
        simp [dictSet, alookup, Ne.symm hne]
      · by_cases h2 : ek = k'
        · simp [dictSet, alookup, h, h2, hne]
        · simp [dictSet, alookup, h, h2, ih]

theorem mem_dictSet {κ α : Type} [DecidableEq κ] (k : κ) (v : α)
    (d : List (κ × α)) (e : κ × α) (he : e ∈ dictSet k v d) :
    e = (k, v) ∨ e ∈ d := by
  induction d with
  | nil => simpa [dictSet] using he
  | cons e' rest ih =>
      by_cases h : e'.1 = k
      · simp only [dictSet, if_pos h, List.mem_cons] at he
        rcases he with h1 | h2
        · exact Or.inl h1
        · exact Or.inr (List.mem_cons_of_mem _ h2)
      · simp only [dictSet, if_neg h, List.mem_cons] at he
        rcases he with h1 | h2
        · exact Or.inr (h1 ▸ List.mem_cons_self _ _)
        · rcases ih h2 with h3 | h4
          · exact Or.inl h3
          · exact Or.inr (List.mem_cons_of_mem _ h4)

/-- The slice of Python's `ipaddress` library that the code uses: whether a
string parses as an IP address, and whether the parsed address is in a
private/reserved range.  `parse ip = none` models the `ValueError` branch. -/
structure IpInfo where
  is_private : Bool
deriving DecidableEq

structure IpLib where
  parse : String → Option IpInfo

/-- `is_valid_ip` (enhanced_bot.py lines 248-254): true iff
`ipaddress.ip_address(ip)` does not raise `ValueError`. -/
def is_valid_ip (L : IpLib) (ip : String) : Bool :=
  (L.parse ip).isSome

/-- Decimal value of a digit-only character list (`none` when empty or a
non-digit appears). -/
def digitsValAux (acc : Nat) : List Char → Option Nat
  | [] => some acc
  | c :: cs =>
      if c.isDigit then digitsValAux (acc * 10 + (c.toNat - '0'.toNat)) cs
      else none

def digitsVal : List Char → Option Nat
  | [] => none
  | cs => digitsValAux 0 cs

/-- Split a character list at every dot. -/
def splitDots : List Char → List (List Char)
  | [] => [[]]
  | c :: cs =>
      let rest := splitDots cs
      if c = '.' then [] :: rest
      else (c :: rest.headD []) :: rest.tail

/-- One octet of a dotted-quad IPv4 string, following CPython
`ipaddress._BaseV4._parse_octet`: decimal digits only, at most three of
them, no leading zero, value at most 255. -/
def parseOctet (cs : List Char) : Option Nat :=
  match digitsVal cs with
  | none => none
  | some n =>
      if cs.length ≤ 3 ∧ (cs.length = 1 ∨ cs.headD ' ' ≠ '0') ∧ n ≤ 255 then
        some n
      else none

/-- Dotted-quad IPv4 parse per CPython `ipaddress.IPv4Address`. -/
def parseIPv4 (s : String) : Option (Nat × Nat × Nat × Nat) :=
  match (splitDots s.data).mapM parseOctet with
  | some [a, b, c, d] => some (a, b, c, d)
  | _ => none

/-- CPython `IPv4Address.is_private`: membership in the standard
private/reserved IPv4 networks. -/
def isPrivateV4 (a b c d : Nat) : Bool :=
  a = 0 ∨ a = 10 ∨ a = 127 ∨ (a = 169 ∧ b = 254) ∨
    (a = 172 ∧ 16 ≤ b ∧ b ≤ 31) ∨
    (a = 192 ∧ b = 0 ∧ c = 0 ∧ d ≤ 7) ∨
    (a = 192 ∧ b = 0 ∧ c = 0 ∧ (d = 170 ∨ d = 171)) ∨
    (a = 192 ∧ b = 0 ∧ c = 2) ∨ (a = 192 ∧ b = 168) ∨
    (a = 198 ∧ (b = 18 ∨ b = 19)) ∨ (a = 198 ∧ b = 51 ∧ c = 100) ∨
    (a = 203 ∧ b = 0 ∧ c = 113) ∨ 240 ≤ a

/-- Concrete model of `ipaddress` for IPv4 dotted-quad strings, used to
evaluate the generic theorems on concrete inputs (the IPv6 grammar, which
no concrete input below exercises, is left out of this instance). -/
def ipv4Lib : IpLib where
  parse s :=
    match parseIPv4 s with
    | none => none
    | some (a, b, c, d) => some { is_private := isPrivateV4 a b c d }

/-- An IP-ban record (enhanced_bot.py lines 265-270): `unbanned_at` is
absent until `unban_ip` adds it. -/
structure IpBanRecord where
  banned_at : String
  reason : String
  banned_by : String
  active : Bool
  unbanned_at : Option String
deriving DecidableEq

/-- A verification record as built at enhanced_bot.py lines 1456-1466. -/
structure VRecord where
  hwid : String
  ip_hash : String
  ip_raw : String
  verified_at : String
  user_id : String
  username : String
  user_display_name : String
  guild_id : String
  guild_name : String
deriving DecidableEq

/-- An invite attribution record as built at enhanced_bot.py
lines 471-478. -/
structure InviteRecord where
  invited_by : String
  invite_code : String
  joined_at : String
  inviter_name : String
  guild_id : String
  uses_at_join : Nat
deriving DecidableEq

/-- A per-guild snapshot inside a user profile (enhanced_bot.py
lines 304-310). -/
structure GuildEntry where
  joined_at : String
  verification_data : VRecord
  status : String
  invite_info : Option InviteRecord
  last_updated : String
deriving DecidableEq

/-- A verification-history entry (enhanced_bot.py lines 313-319). -/
structure HistoryEntry where
  guild_id : String
  timestamp : String
  hwid : String
  ip_hash : String
  success : Bool
deriving DecidableEq

/-- A user profile (enhanced_bot.py lines 293-321). -/
structure UserProfile where
  user_id : String
  created_at : String
  guilds : List (String × GuildEntry)
  verification_history : List HistoryEntry
  security_flags : List String
  total_verifications : Nat
deriving DecidableEq

/-- The configuration keys read by the embedded operations
(enhanced_bot.py lines 60-106; the `config` dict always carries these keys,
so `config.get(key, default)` is a plain field read). -/
structure Config where
  max_failed_attempts : Nat
  auto_blacklist_enabled : Bool
  invite_tracking_enabled : Bool
  admin_ping_enabled : Bool
  moderator_ping_enabled : Bool
  staff_role : Option Nat
  mute_role : Option Nat
deriving DecidableEq

/-- The defaults at enhanced_bot.py lines 60-106. -/
def defaultConfig : Config where
  max_failed_attempts := 3
  auto_blacklist_enabled := true
  invite_tracking_enabled := false
  admin_ping_enabled := true
  moderator_ping_enabled := true
  staff_role := none
  mute_role := none

/-- The mutable collections of `AdvancedVerificationBot`
(enhanced_bot.py lines 52-59).  Guild invite snapshots are keyed by the
integer `guild.id`, every other collection by a string key, exactly as in
the Python dicts. -/
structure BotState where
  verification_data : List (String × VRecord)
  blacklist : List String
  whitelist : List String
  failed_attempts : List (String × Nat)
  invite_data : List (String × InviteRecord)
  guild_invites : List (Nat × List (String × Nat))
  ip_bans : List (String × IpBanRecord)
  user_profiles : List (String × UserProfile)
deriving DecidableEq

/-- The empty collections the bot starts from. -/
def emptyState : BotState where
  verification_data := []
  blacklist := []
  whitelist := []
  failed_attempts := []
  invite_data := []
  guild_invites := []
  ip_bans := []
  user_profiles := []

/-- `is_ip_banned` (enhanced_bot.py lines 256-258): membership of the key in
`self.ip_bans` — the `active` flag is not consulted. -/
def is_ip_banned (s : BotState) (ip : String) : Bool :=
  (alookup ip s.ip_bans).isSome

/-- `ban_ip` (enhanced_bot.py lines 260-272): rejects an invalid address,
otherwise unconditionally installs a fresh record and reports success. -/
def ban_ip (L : IpLib) (ip reason banned_by now : String) (s : BotState) :
    Bool × BotState :=
  if is_valid_ip L ip then
    let fresh : IpBanRecord :=
      { banned_at := now, reason := reason, banned_by := banned_by,
        active := true, unbanned_at := none }
    (true, { s with ip_bans := dictSet ip fresh s.ip_bans })
  else (false, s)

/-- `unban_ip` (enhanced_bot.py lines 274-281): soft delete — the record
keeps its fields, `active` becomes false and `unbanned_at` is added. -/
def unban_ip (ip now : String) (s : BotState) : Bool × BotState :=
  match alookup ip s.ip_bans with
  | some r =>
      let r' := { r with active := false, unbanned_at := some now }
      (true, { s with ip_bans := dictSet ip r' s.ip_bans })
  | none => (false, s)

/-- `increment_failed_attempts` (enhanced_bot.py lines 379-390): bump the
counter; when the new value reaches the threshold and auto-blacklist is on,
append the user to the blacklist list and report true. -/
def increment_failed_attempts (cfg : Config) (user_id : String)
    (s : BotState) : Bool × BotState :=
  let n := (alookup user_id s.failed_attempts).getD 0 + 1
  let s1 := { s with failed_attempts := dictSet user_id n s.failed_attempts }
  if cfg.max_failed_attempts ≤ n ∧ cfg.auto_blacklist_enabled = true then
    (true, { s1 with blacklist := s1.blacklist ++ [user_id] })
  else (false, s1)

/-- `check_hwid_duplicate` (enhanced_bot.py lines 324-330): the ids of every
other user whose stored record carries the same hwid, in dict order. -/
def check_hwid_duplicate (hwid user_id : String)
    (d : List (String × VRecord)) : List String :=
  (d.filter (fun e => e.1 != user_id && e.2.hwid == hwid)).map Prod.fst

/-- The caller-supplied browser signals of `detect_vpn`
(`additional_data`); `none` models both `None` and the falsy empty dict. -/
structure AdditionalData where
  webrtc_detected : Bool
  timezone_mismatch : Bool
deriving DecidableEq

/-- The result dict of `detect_vpn` (enhanced_bot.py lines 335-340). -/
structure VpnResult where
  is_vpn : Bool
  confidence : Rat
  reasons : List String
  method : String
deriving DecidableEq

/-- `detect_vpn` (enhanced_bot.py lines 332-377): private range scores 0.9,
the two optional browser signals add 0.3 and 0.2, and after a successful
parse the verdict is recomputed as `confidence > 0.5`; an unparsable
address takes the `ValueError` branch and keeps the initial verdict. -/
def detect_vpn (L : IpLib) (ip : String) (additional : Option AdditionalData) :
    VpnResult :=
  let r0 : VpnResult :=
    { is_vpn := false, confidence := 0, reasons := [], method := "basic" }
  match L.parse ip with
  | none => { r0 with reasons := r0.reasons ++ ["Invalid IP format"] }
  | some info =>
      let r1 :=
        if info.is_private then
          { r0 with
              is_vpn := true
              confidence := 0.9
              reasons := r0.reasons ++ ["Private IP range detected"] }
        else r0
      let r2 :=
        match additional with
        | none => r1
        | some ad =>
            let ra :=
              if ad.webrtc_detected then
                { r1 with
                    confidence := r1.confidence + 0.3
                    reasons := r1.reasons ++ ["WebRTC anomaly detected"] }
              else r1
            if ad.timezone_mismatch then
              { ra with
                  confidence := ra.confidence + 0.2
                  reasons := ra.reasons ++ ["Timezone/IP location mismatch"] }
            else ra
      { r2 with is_vpn := decide (r2.confidence > 0.5) }

/-- `create_user_profile` (enhanced_bot.py lines 291-322): create the
profile skeleton when absent, then link the guild snapshot (the history
timestamp and joined-at fall back to `now`, since the record dict passed in
carries no `timestamp` key), append a history entry and bump the total. -/
def create_user_profile (user_id guild_id : String) (data : VRecord)
    (now : String) (s : BotState) : BotState :=
  let base : UserProfile :=
    match alookup user_id s.user_profiles with
    | some p => p
    | none =>
        { user_id := user_id, created_at := now, guilds := [],
          verification_history := [], security_flags := [],
          total_verifications := 0 }
  let entry : GuildEntry :=
    { joined_at := now, verification_data := data, status := "verified",
      invite_info := alookup user_id s.invite_data, last_updated := now }
  let hist : HistoryEntry :=
    { guild_id := guild_id, timestamp := now, hwid := data.hwid,
      ip_hash := data.ip_hash, success := true }
  let p' :=
    { base with
        guilds := dictSet guild_id entry base.guilds
        verification_history := base.verification_history ++ [hist]
        total_verifications := base.total_verifications + 1 }
  { s with user_profiles := dictSet user_id p' s.user_profiles }

/-- One inbound verification submission, bundled with the platform facts
the pipeline reads while handling it: whether `guild.get_member` finds the
user, the member's names, and the guild identity.  `time` stands for
`datetime.now()` during this run. -/
structure Submission where
  discord_id : String
  hwid : String
  ip : String
  member_present : Bool
  user_name : String
  user_discriminator : String
  user_display_name : String
  guild_id : String
  guild_name : String
  time : String
deriving DecidableEq

/-- The verification record built at enhanced_bot.py lines 1456-1466. -/
def mkVerificationRecord (hash_ip : String → String) (sub : Submission) :
    VRecord :=
  { hwid := sub.hwid
    ip_hash := hash_ip sub.ip
    ip_raw := sub.ip
    verified_at := sub.time
    user_id := sub.discord_id
    username := sub.user_name ++ "#" ++ sub.user_discriminator
    user_display_name := sub.user_display_name
    guild_id := sub.guild_id
    guild_name := sub.guild_name }

/-- The terminal outcome of one pipeline run, mirroring which reply branch
of `process_verification_request` returned. -/
inductive Outcome where
  | notAMember (auto_blacklisted : Bool)
  | blacklistedUser
  | duplicateHwid (duplicates : List String)
  | vpnFlagged (result : VpnResult)
  | verified
deriving DecidableEq

/-- Whether an outcome is the duplicate-HWID flag. -/
def Outcome.isDuplicateFlag : Outcome → Bool
  | .duplicateHwid _ => true
  | _ => false

/-- `process_verification_request` (enhanced_bot.py lines 1348-1532):
member-presence check (failed attempt on absence), blacklist check,
duplicate-HWID check (mute hold, no write), VPN check with no additional
signals (blacklist append, no write), then the commit path — store the
record, link the user profile, and drop the failed-attempt counter.
Role changes, replies and pings have no effect on the collections and are
summarized by the returned `Outcome`. -/
def process_verification_request (L : IpLib) (hash_ip : String → String)
    (cfg : Config) (sub : Submission) (s : BotState) : Outcome × BotState :=
  if sub.member_present = false then
    let r := increment_failed_attempts cfg sub.discord_id s
    (.notAMember r.1, r.2)
  else if sub.discord_id ∈ s.blacklist then
    (.blacklistedUser, s)
  else
    let dups := check_hwid_duplicate sub.hwid sub.discord_id s.verification_data
    if dups.isEmpty = false then
      (.duplicateHwid dups, s)
    else
      let vpn := detect_vpn L sub.ip none
      if vpn.is_vpn then
        (.vpnFlagged vpn, { s with blacklist := s.blacklist ++ [sub.discord_id] })
      else
        let data := mkVerificationRecord hash_ip sub
        let s1 := { s with
          verification_data := dictSet sub.discord_id data s.verification_data }
        let s2 := create_user_profile sub.discord_id sub.guild_id data sub.time s1
        let s3 := { s2 with
          failed_attempts := dictErase sub.discord_id s2.failed_attempts }
        (.verified, s3)

/-- A whole sequence of submissions fed through the pipeline in order. -/
def runSubmissions (L : IpLib) (hash_ip : String → String) (cfg : Config)
    (subs : List Submission) (s : BotState) : BotState :=
  subs.foldl (fun st sub => (process_verification_request L hash_ip cfg sub st).2) s

/-- The inviter of a guild invite, as read off `invite.inviter`. -/
structure Inviter where
  id : Nat
  name : String
  discriminator : String
deriving DecidableEq

/-- One entry of `await guild.invites()`. -/
structure Invite where
  code : String
  uses : Nat
  inviter : Option Inviter
deriving DecidableEq

/-- The first code in the current listing whose use count strictly
increased over the stored snapshot (enhanced_bot.py lines 458-462). -/
def findUsedInvite (old : List (String × Nat)) :
    List (String × Nat) → Option String
  | [] => none
  | (code, uses) :: rest =>
      match alookup code old with
      | some oldUses =>
          if oldUses < uses then some code else findUsedInvite old rest
      | none => findUsedInvite old rest

/-- The attribution record written at enhanced_bot.py lines 471-478 for a
used invite found in the listing. -/
def mkInviteRecord (inv : Invite) (code : String) (guild_id : Nat)
    (now : String) (current : List (String × Nat)) : InviteRecord :=
  { invited_by :=
      match inv.inviter with
      | some u => toString u.id
      | none => "Unknown"
    invite_code := code
    joined_at := now
    inviter_name :=
      match inv.inviter with
      | some u => u.name ++ "#" ++ u.discriminator
      | none => "Unknown"
    guild_id := toString guild_id
    uses_at_join := (alookup code current).getD 0 }

/-- `track_invite_usage` (enhanced_bot.py lines 446-486): diff the current
invite listing against the stored per-guild snapshot, always refresh the
snapshot, and when a used code is found write the attribution record for
the joining member (unconditionally — any existing record for that member
is replaced) and return the inviter.  `listing` stands for the result of
`await guild.invites()`, used both for the use-count dict and for the
inviter scan. -/
def track_invite_usage (cfg : Config) (listing : List Invite)
    (member_id guild_id : Nat) (now : String) (s : BotState) :
    Option Inviter × BotState :=
  if cfg.invite_tracking_enabled = false then
    (none, s)
  else
    let current := listing.map (fun i => (i.code, i.uses))
    let used_invite :=
      match alookup guild_id s.guild_invites with
      | some old => findUsedInvite old current
      | none => none
    let s1 := { s with guild_invites := dictSet guild_id current s.guild_invites }
    match used_invite with
    | none => (none, s1)
    | some code =>
        match listing.find? (fun i => i.code == code) with
        | none => (none, s1)
        | some inv =>
            let rec0 := mkInviteRecord inv code guild_id now current
            let s2 := { s1 with
              invite_data := dictSet (toString member_id) rec0 s1.invite_data }
            (inv.inviter, s2)

/-- A guild member as read by `ping_administrators`. -/
structure Member where
  id : Nat
  mention : String
  is_bot : Bool
  is_administrator : Bool
  can_kick_members : Bool
  can_ban_members : Bool
  role_ids : List Nat
deriving DecidableEq

/-- A guild as read by `ping_administrators`: its member list in iteration
order and the set of role ids `guild.get_role` can resolve. -/
structure Guild where
  members : List Member
  role_ids : List Nat
deriving DecidableEq

/-- The audience resolution of `ping_administrators` (enhanced_bot.py
lines 407-426): mentions of the non-bot administrators, staff-role holders
or kick/ban-capable members, depending on the ping type. -/
def resolveMentions (cfg : Config) (g : Guild) (ping_type : String) :
    List String :=
  if ping_type == "admin" && cfg.admin_ping_enabled then
    (g.members.filter (fun m => m.is_administrator && !m.is_bot)).map Member.mention
  else if ping_type == "staff" && cfg.staff_role.isSome then
    match cfg.staff_role with
    | some rid =>
        if rid ∈ g.role_ids then
          (g.members.filter (fun m => m.role_ids.contains rid && !m.is_bot)).map
            Member.mention
        else []
    | none => []
  else if ping_type == "mod" && cfg.moderator_ping_enabled then
    (g.members.filter
      (fun m => (m.can_kick_members || m.can_ban_members) && !m.is_bot)).map
      Member.mention
  else []

/-- `ping_administrators` (enhanced_bot.py lines 404-444): when the
resolved mention list is nonempty and holds at most 15 entries, an alert
field with the first 10 mentions and the reason is attached to the embed;
otherwise nothing is attached.  The result is the attached field. -/
def ping_administrators (cfg : Config) (g : Guild)
    (ping_type reason : String) : Option (List String × String) :=
  let mentions := resolveMentions cfg g ping_type
  if !mentions.isEmpty && mentions.length ≤ 15 then
    some (mentions.take 10, reason)
  else none

/-- The document `save_data` writes to `verification_data.json`
(enhanced_bot.py lines 137-144).  JSON serialization is the standard
library's and is modelled as the identity on the document, so a file is the
dict value itself. -/
structure VerificationFile where
  verification_data : List (String × VRecord)
  blacklist : List String
  whitelist : List String
  failed_attempts : List (String × Nat)
  last_updated : String
  version : String
deriving DecidableEq

/-- `save_data` (enhanced_bot.py lines 129-151): dump the four collections
plus a timestamp and version tag. -/
def save_data (s : BotState) (now : String) : VerificationFile :=
  { verification_data := s.verification_data
    blacklist := s.blacklist
    whitelist := s.whitelist
    failed_attempts := s.failed_attempts
    last_updated := now
    version := "2.0" }

/-- `load_data` (enhanced_bot.py lines 113-127): when the file exists and
parses, install its four collections; otherwise the collections are left
as they are (the error branch only creates missing empty files). -/
def load_data (file : Option VerificationFile) (s : BotState) : BotState :=
  match file with
  | none => s
  | some f =>
      { s with
          verification_data := f.verification_data
          blacklist := f.blacklist
          whitelist := f.whitelist
          failed_attempts := f.failed_attempts }

/-- `save_invite_data` (enhanced_bot.py lines 182-188): the file content is
the `invite_data` dict itself. -/
def save_invite_data (s : BotState) : List (String × InviteRecord) :=
  s.invite_data

/-- `load_invite_data` (enhanced_bot.py lines 172-180). -/
def load_invite_data (file : Option (List (String × InviteRecord)))
    (s : BotState) : BotState :=
  match file with
  | none => s
  | some d => { s with invite_data := d }

/-- `save_ip_bans` (enhanced_bot.py lines 200-206). -/
def save_ip_bans (s : BotState) : List (String × IpBanRecord) :=
  s.ip_bans

/-- `load_ip_bans` (enhanced_bot.py lines 190-198). -/
def load_ip_bans (file : Option (List (String × IpBanRecord)))
    (s : BotState) : BotState :=
  match file with
  | none => s
  | some d => { s with ip_bans := d }

/-- `save_user_profiles` (enhanced_bot.py lines 218-224). -/
def save_user_profiles (s : BotState) : List (String × UserProfile) :=
  s.user_profiles

/-- `load_user_profiles` (enhanced_bot.py lines 208-216). -/
def load_user_profiles (file : Option (List (String × UserProfile)))
    (s : BotState) : BotState :=
  match file with
  | none => s
  | some d => { s with user_profiles := d }

/-- C8: saving and then loading restores every persisted collection
exactly — `verification_data`, `blacklist`, `whitelist` and
`failed_attempts` through `save_data`/`load_data`, and the invite, IP-ban
and user-profile collections through their own save/load pairs. -/
theorem C8_save_load_round_trip (s s0 : BotState) (now : String) :
    (load_data (some (save_data s now)) s0).verification_data =
      s.verification_data ∧
    (load_data (some (save_data s now)) s0).blacklist = s.blacklist ∧
    (load_data (some (save_data s now)) s0).whitelist = s.whitelist ∧
    (load_data (some (save_data s now)) s0).failed_attempts =
      s.failed_attempts ∧
    (load_invite_data (some (save_invite_data s)) s0).invite_data =
      s.invite_data ∧
    (load_ip_bans (some (save_ip_bans s)) s0).ip_bans = s.ip_bans ∧
    (load_user_profiles (some (save_user_profiles s)) s0).user_profiles =
      s.user_profiles :=
  ⟨rfl, rfl, rfl, rfl, rfl, rfl, rfl⟩

def c2_afterBan : BotState :=
  (ban_ip ipv4Lib "8.8.8.8" "abuse" "admin1" "t1" emptyState).2

def c2_afterUnban : BotState := (unban_ip "8.8.8.8" "t2" c2_afterBan).2

/-- C2: Scenario D evaluated on the code.  `ban` then `isBanned` gives
true and `unban` returns true with the record keeping `reason = "abuse"`
and `active = false`, but `isBanned` afterwards still returns true — the
claim expects false, while `is_ip_banned` only tests key presence and
never consults the `active` flag that `unban_ip` cleared. -/
theorem C2_code_behavior :
    (ban_ip ipv4Lib "8.8.8.8" "abuse" "admin1" "t1" emptyState).1 = true ∧
    is_ip_banned c2_afterBan "8.8.8.8" = true ∧
    (unban_ip "8.8.8.8" "t2" c2_afterBan).1 = true ∧
    (alookup "8.8.8.8" c2_afterUnban.ip_bans).map IpBanRecord.reason =
      some "abuse" ∧
    (alookup "8.8.8.8" c2_afterUnban.ip_bans).map IpBanRecord.active =
      some false ∧
    is_ip_banned c2_afterUnban "8.8.8.8" = true := by
  decide

/-- C9: `ban_ip` on a valid address unconditionally installs a fresh
record — active again, with the new reason, actor and timestamp and no
`unbanned_at` — discarding whatever record (including a deactivated one)
was stored for that IP before. -/
theorem C9_reban_replaces_record (L : IpLib) (ip reason actor now : String)
    (s : BotState) (h : is_valid_ip L ip = true) :
    (ban_ip L ip reason actor now s).1 = true ∧
    alookup ip (ban_ip L ip reason actor now s).2.ip_bans =
      some { banned_at := now, reason := reason, banned_by := actor,
             active := true, unbanned_at := none } := by
  refine ⟨by simp [ban_ip, h], ?_⟩
  simp only [ban_ip, if_pos h]
  exact alookup_dictSet_self ip _ s.ip_bans

def c9_prior : BotState :=
  { emptyState with ip_bans :=
      [("8.8.8.8",
        { banned_at := "t1", reason := "abuse", banned_by := "admin1",
          active := false, unbanned_at := some "t2" })] }

/-- Witness for C9 at a concrete IP whose stored record is a deactivated
earlier ban: re-banning erases that history. -/
theorem C9_witness :
    is_valid_ip ipv4Lib "8.8.8.8" = true ∧
    ((ban_ip ipv4Lib "8.8.8.8" "spam" "admin2" "t3" c9_prior).1 = true ∧
      alookup "8.8.8.8"
          (ban_ip ipv4Lib "8.8.8.8" "spam" "admin2" "t3" c9_prior).2.ip_bans =
        some { banned_at := "t3", reason := "spam", banned_by := "admin2",
               active := true, unbanned_at := none }) :=
  ⟨by decide,
    C9_reban_replaces_record ipv4Lib "8.8.8.8" "spam" "admin2" "t3" c9_prior
      (by decide)⟩

/-- C6: a private/reserved address with no additional signals is scored
with confidence 0.9 and the private-range reason, and on every input the
flag equals "confidence strictly above the 0.5 threshold". -/
theorem C6_risk_evaluator (L : IpLib) :
    (∀ ip info, L.parse ip = some info → info.is_private = true →
        detect_vpn L ip none =
          { is_vpn := true, confidence := 0.9,
            reasons := ["Private IP range detected"], method := "basic" }) ∧
    (∀ ip additional,
        (detect_vpn L ip additional).is_vpn =
          decide ((detect_vpn L ip additional).confidence > 0.5)) := by
  constructor
  · intro ip info hp hpriv
    simp [detect_vpn, hp, hpriv]
    norm_num
  · intro ip additional
    unfold detect_vpn
    cases hp : L.parse ip with
    | none =>
        simp only []
        norm_num
    | some info =>
        simp only []

/-- Witness for C6 at the private address 10.0.0.5. -/
theorem C6_witness :
    ipv4Lib.parse "10.0.0.5" = some { is_private := true } ∧
    ({ is_private := true } : IpInfo).is_private = true ∧
    detect_vpn ipv4Lib "10.0.0.5" none =
      { is_vpn := true, confidence := 0.9,
        reasons := ["Private IP range detected"], method := "basic" } :=
  ⟨by decide, rfl,
    (C6_risk_evaluator ipv4Lib).1 "10.0.0.5" { is_private := true }
      (by decide) rfl⟩

/-- The state transformation of one `recordFailure` call. -/
def applyIncrement (cfg : Config) (uid : String) (s : BotState) : BotState :=
  (increment_failed_attempts cfg uid s).2

theorem failed_attempts_after_increment (cfg : Config) (uid : String)
    (s : BotState) :
    (increment_failed_attempts cfg uid s).2.failed_attempts =
      dictSet uid ((alookup uid s.failed_attempts).getD 0 + 1)
        s.failed_attempts := by
  by_cases h : cfg.max_failed_attempts ≤ (alookup uid s.failed_attempts).getD 0 + 1
      ∧ cfg.auto_blacklist_enabled = true <;>
    simp [increment_failed_attempts, h]

theorem blacklist_after_increment (cfg : Config) (uid : String)
    (s : BotState) :
    (increment_failed_attempts cfg uid s).2.blacklist =
      s.blacklist ++
        (if cfg.max_failed_attempts ≤ (alookup uid s.failed_attempts).getD 0 + 1
            ∧ cfg.auto_blacklist_enabled = true then [uid] else []) := by
  by_cases h : cfg.max_failed_attempts ≤ (alookup uid s.failed_attempts).getD 0 + 1
      ∧ cfg.auto_blacklist_enabled = true <;>
    simp [increment_failed_attempts, h]

theorem flag_of_increment (cfg : Config) (uid : String) (s : BotState) :
    (increment_failed_attempts cfg uid s).1 =
      decide (cfg.max_failed_attempts ≤ (alookup uid s.failed_attempts).getD 0 + 1
        ∧ cfg.auto_blacklist_enabled = true) := by
  by_cases h : cfg.max_failed_attempts ≤ (alookup uid s.failed_attempts).getD 0 + 1
      ∧ cfg.auto_blacklist_enabled = true <;>
    simp [increment_failed_attempts, h]

theorem counter_after_iterations (cfg : Config) (uid : String) (s : BotState)
    (h0 : alookup uid s.failed_attempts = none) (n : Nat) :
    (alookup uid ((applyIncrement cfg uid)^[n] s).failed_attempts).getD 0 = n := by
  induction n with
  | zero => simp [h0]
  | succ n ih =>
      rw [Function.iterate_succ_apply']
      simp only [applyIncrement]
      rw [failed_attempts_after_increment, alookup_dictSet_self]
      simp [ih]

/-- C5: with auto-blacklist enabled and the counter initially absent, the
k-th `recordFailure` call (1 ≤ k ≤ maxFailedAttempts) reports
`blacklisted = true` exactly when k is the final, threshold-reaching
call. -/
theorem C5_failed_attempt_threshold (cfg : Config) (uid : String)
    (s : BotState) (hen : cfg.auto_blacklist_enabled = true)
    (h0 : alookup uid s.failed_attempts = none) (k : Nat) (hk1 : 1 ≤ k)
    (hk : k ≤ cfg.max_failed_attempts) :
    (increment_failed_attempts cfg uid
        ((applyIncrement cfg uid)^[k - 1] s)).1 =
      decide (k = cfg.max_failed_attempts) := by
  rw [flag_of_increment, counter_after_iterations cfg uid s h0 (k - 1)]
  have hk' : k - 1 + 1 = k := Nat.succ_pred_eq_of_pos hk1
  rw [hk']
  by_cases h : cfg.max_failed_attempts ≤ k
  · have : k = cfg.max_failed_attempts := Nat.le_antisymm hk h
    simp [this, hen]
  · have : k ≠ cfg.max_failed_attempts := fun hEq => h (hEq ▸ Nat.le_refl k)
    simp [this, h]

/-- Witness for C5 with the default configuration (threshold 3): the third
call from an absent counter reports the blacklisting. -/
theorem C5_witness :
    defaultConfig.auto_blacklist_enabled = true ∧
    alookup "u3" emptyState.failed_attempts = none ∧
    1 ≤ 3 ∧ 3 ≤ defaultConfig.max_failed_attempts ∧
    (increment_failed_attempts defaultConfig "u3"
        ((applyIncrement defaultConfig "u3")^[3 - 1] emptyState)).1 =
      decide (3 = defaultConfig.max_failed_attempts) :=
  ⟨rfl, rfl, by decide, by decide,
    C5_failed_attempt_threshold defaultConfig "u3" emptyState rfl rfl 3
      (by decide) (by decide)⟩

def c3_after (n : Nat) : BotState :=
  (applyIncrement defaultConfig "u9")^[n] emptyState

/-- C3 counterexample: with the default threshold 3, the fourth failed
attempt fires the trigger a second time and the blacklist ends up holding
the same user twice — automatic insertion is not idempotent. -/
theorem C3_counterexample : (c3_after 4).blacklist = ["u9", "u9"] := by
  decide

/-- C3 amended: reaching the threshold does insert into the blacklist, but
the insertion is a plain list append — every call at or above the
threshold appends again, so repeated triggers produce duplicate entries —
and the failed-attempt counter is not the sole automatic trigger: the
pipeline's VPN branch also appends the submitting user to the
blacklist. -/
theorem C3_amended_blacklist_triggers :
    (∀ (cfg : Config) (uid : String) (s : BotState),
      cfg.auto_blacklist_enabled = true →
      alookup uid s.failed_attempts = none →
      ∀ k, 1 ≤ k →
        ((applyIncrement cfg uid)^[k] s).blacklist =
          ((applyIncrement cfg uid)^[k - 1] s).blacklist ++
            (if cfg.max_failed_attempts ≤ k then [uid] else [])) ∧
    (∀ (L : IpLib) (hash_ip : String → String) (cfg : Config)
        (sub : Submission) (s : BotState),
      sub.member_present = true →
      sub.discord_id ∉ s.blacklist →
      check_hwid_duplicate sub.hwid sub.discord_id s.verification_data = [] →
      (detect_vpn L sub.ip none).is_vpn = true →
      (process_verification_request L hash_ip cfg sub s).2.blacklist =
        s.blacklist ++ [sub.discord_id]) := by
  constructor
  · intro cfg uid s hen h0 k hk1
    have hk' : k - 1 + 1 = k := Nat.succ_pred_eq_of_pos hk1
    conv_lhs => rw [← hk']
    rw [Function.iterate_succ_apply']
    simp only [applyIncrement]
    rw [blacklist_after_increment,
      counter_after_iterations cfg uid s h0 (k - 1), hk']
    simp [hen]
  · intro L hash_ip cfg sub s hm hb hdup hvpn
    simp [process_verification_request, hm, hb, hdup, hvpn]

def c3_sub : Submission :=
  { discord_id := "u1", hwid := "h1", ip := "10.0.0.5",
    member_present := true, user_name := "alice",
    user_discriminator := "0001", user_display_name := "Alice",
    guild_id := "g1", guild_name := "Guild", time := "t0" }

/-- Witness for the amended C3: the fourth threshold-triggering call
appends a second copy of the user, and a private-address submission makes
the VPN branch append the submitter to the blacklist. -/
theorem C3_witness :
    (defaultConfig.auto_blacklist_enabled = true ∧
      alookup "u9" emptyState.failed_attempts = none ∧ 1 ≤ 4 ∧
      ((applyIncrement defaultConfig "u9")^[4] emptyState).blacklist =
        ((applyIncrement defaultConfig "u9")^[4 - 1] emptyState).blacklist ++
          (if defaultConfig.max_failed_attempts ≤ 4 then ["u9"] else [])) ∧
    (c3_sub.member_present = true ∧ c3_sub.discord_id ∉ emptyState.blacklist ∧
      check_hwid_duplicate c3_sub.hwid c3_sub.discord_id
        emptyState.verification_data = [] ∧
      (detect_vpn ipv4Lib c3_sub.ip none).is_vpn = true ∧
      (process_verification_request ipv4Lib (fun x => x) defaultConfig c3_sub
          emptyState).2.blacklist =
        emptyState.blacklist ++ [c3_sub.discord_id]) := by
  have hvpn : (detect_vpn ipv4Lib c3_sub.ip none).is_vpn = true := by
    have hp : ipv4Lib.parse "10.0.0.5" = some { is_private := true } := by
      decide
    simp [detect_vpn, c3_sub, hp]
    norm_num
  refine ⟨⟨rfl, rfl, by decide, ?_⟩, ⟨rfl, by decide, rfl, hvpn, ?_⟩⟩
  · exact C3_amended_blacklist_triggers.1 defaultConfig "u9" emptyState rfl
      rfl 4 (by decide)
  · exact C3_amended_blacklist_triggers.2 ipv4Lib (fun x => x) defaultConfig
      c3_sub emptyState rfl (by decide) rfl hvpn

def c4_cfg : Config := { defaultConfig with invite_tracking_enabled := true }

def c4_old : InviteRecord :=
  { invited_by := "7", invite_code := "old", joined_at := "t0",
    inviter_name := "bob#0002", guild_id := "1", uses_at_join := 1 }

def c4_new : InviteRecord :=
  { invited_by := "9", invite_code := "abc", joined_at := "t1",
    inviter_name := "eve#0003", guild_id := "1", uses_at_join := 2 }

def c4_listing : List Invite :=
  [{ code := "abc", uses := 2,
     inviter := some { id := 9, name := "eve", discriminator := "0003" } }]

def c4_s : BotState :=
  { emptyState with
      invite_data := [("42", c4_old)]
      guild_invites := [(1, [("abc", 1)])] }

/-- C4 counterexample: member 42 already holds an attribution record, yet
a re-join that detects a used invite code replaces it with a fresh record
— the existing attribution is not left unchanged. -/
theorem C4_counterexample :
    alookup "42" c4_s.invite_data = some c4_old ∧
    alookup "42" (track_invite_usage c4_cfg c4_listing 42 1 "t1" c4_s).2.invite_data =
      some c4_new ∧
    c4_new ≠ c4_old := by
  decide

/-- C4 amended: attribution is last-write-wins, not write-once — whenever
a later join detects a used invite code that the listing resolves, the
member's attribution record is overwritten with the new attribution; the
old record survives only when tracking is disabled or no code's use count
increased. -/
theorem C4_amended_attribution_overwrite :
    (∀ (cfg : Config) (listing : List Invite) (member_id guild_id : Nat)
        (now : String) (s : BotState) (oldSnap : List (String × Nat))
        (code : String) (inv : Invite),
      cfg.invite_tracking_enabled = true →
      alookup guild_id s.guild_invites = some oldSnap →
      findUsedInvite oldSnap (listing.map (fun i => (i.code, i.uses))) =
        some code →
      listing.find? (fun i => i.code == code) = some inv →
      alookup (toString member_id)
          (track_invite_usage cfg listing member_id guild_id now s).2.invite_data =
        some (mkInviteRecord inv code guild_id now
          (listing.map (fun i => (i.code, i.uses))))) ∧
    (∀ (cfg : Config) (listing : List Invite) (member_id guild_id : Nat)
        (now : String) (s : BotState),
      cfg.invite_tracking_enabled = false →
      (track_invite_usage cfg listing member_id guild_id now s).2 = s) ∧
    (∀ (cfg : Config) (listing : List Invite) (member_id guild_id : Nat)
        (now : String) (s : BotState) (oldSnap : List (String × Nat)),
      cfg.invite_tracking_enabled = true →
      alookup guild_id s.guild_invites = some oldSnap →
      findUsedInvite oldSnap (listing.map (fun i => (i.code, i.uses))) = none →
      (track_invite_usage cfg listing member_id guild_id now s).2.invite_data =
        s.invite_data) := by
  refine ⟨?_, ?_, ?_⟩
  · intro cfg listing member_id guild_id now s oldSnap code inv hen hsnap
      hfound hinlist
    simp only [track_invite_usage, hen, hsnap, hfound, hinlist]
    simp [alookup_dictSet_self]
  · intro cfg listing member_id guild_id now s hdis
    simp [track_invite_usage, hdis]
  · intro cfg listing member_id guild_id now s oldSnap hen hsnap hnone
    simp [track_invite_usage, hen, hsnap, hnone]

/-- Witness for the amended C4 at the concrete rejoin scenario: the
attribution of member 42 is overwritten with the new invite record. -/
theorem C4_witness :
    c4_cfg.invite_tracking_enabled = true ∧
    alookup 1 c4_s.guild_invites = some [("abc", 1)] ∧
    findUsedInvite [("abc", 1)]
      (c4_listing.map (fun i => (i.code, i.uses))) = some "abc" ∧
    c4_listing.find? (fun i => i.code == "abc") = some (c4_listing.headD
      { code := "", uses := 0, inviter := none }) ∧
    alookup (toString (42 : Nat))
        (track_invite_usage c4_cfg c4_listing 42 1 "t1" c4_s).2.invite_data =
      some (mkInviteRecord
        (c4_listing.headD { code := "", uses := 0, inviter := none }) "abc" 1
        "t1" (c4_listing.map (fun i => (i.code, i.uses)))) :=
  ⟨rfl, by decide, by decide, by decide,
    C4_amended_attribution_overwrite.1 c4_cfg c4_listing 42 1 "t1" c4_s
      [("abc", 1)] "abc" _ rfl (by decide) (by decide) (by decide)⟩

/-- C10: a dispatched alert carries at most 10 mentions, and when the
resolved audience holds more than 15 eligible members nothing is attached
at all. -/
theorem C10_alert_mention_bound (cfg : Config) (g : Guild)
    (ping_type reason : String) :
    (∀ field, ping_administrators cfg g ping_type reason = some field →
        field.1.length ≤ 10) ∧
    (15 < (resolveMentions cfg g ping_type).length →
        ping_administrators cfg g ping_type reason = none) := by
  constructor
  · intro field hf
    unfold ping_administrators at hf
    by_cases hc : !(resolveMentions cfg g ping_type).isEmpty &&
        (resolveMentions cfg g ping_type).length ≤ 15
    · rw [if_pos hc] at hf
      cases hf
      simp [List.length_take]
    · rw [if_neg hc] at hf
      cases hf
  · intro h15
    unfold ping_administrators
    rw [if_neg]
    simp only [Bool.and_eq_true, Bool.not_eq_true', decide_eq_true_eq]
    intro hc
    exact absurd hc.2 (by omega)

def c10_g16 : Guild :=
  { members := (List.range 16).map (fun i =>
      { id := i, mention := "m", is_bot := false, is_administrator := true,
        can_kick_members := false, can_ban_members := false, role_ids := [] }),
    role_ids := [] }

def c10_g2 : Guild :=
  { members := [
      { id := 0, mention := "a", is_bot := false, is_administrator := true,
        can_kick_members := false, can_ban_members := false, role_ids := [] },
      { id := 1, mention := "b", is_bot := false, is_administrator := true,
        can_kick_members := false, can_ban_members := false, role_ids := [] }],
    role_ids := [] }

/-- Witness for C10: a 16-administrator guild yields no alert field at
all, and a 2-administrator guild yields a field with at most 10
mentions. -/
theorem C10_witness :
    (15 < (resolveMentions defaultConfig c10_g16 "admin").length ∧
      ping_administrators defaultConfig c10_g16 "admin" "alert" = none) ∧
    (ping_administrators defaultConfig c10_g2 "admin" "alert" =
        some (["a", "b"], "alert") ∧
      (["a", "b"], "alert").1.length ≤ 10) :=
  ⟨⟨by decide,
      (C10_alert_mention_bound defaultConfig c10_g16 "admin" "alert").2
        (by decide)⟩,
    ⟨by decide,
      (C10_alert_mention_bound defaultConfig c10_g2 "admin" "alert").1
        (["a", "b"], "alert") (by decide)⟩⟩

theorem verification_data_increment (cfg : Config) (uid : String)
    (s : BotState) :
    (increment_failed_attempts cfg uid s).2.verification_data =
      s.verification_data := by
  by_cases h : cfg.max_failed_attempts ≤ (alookup uid s.failed_attempts).getD 0 + 1
      ∧ cfg.auto_blacklist_enabled = true <;>
    simp [increment_failed_attempts, h]

theorem verification_data_profile (uid gid : String) (data : VRecord)
    (now : String) (s : BotState) :
    (create_user_profile uid gid data now s).verification_data =
      s.verification_data := rfl

theorem check_hwid_duplicate_eq_nil (h uid : String)
    (d : List (String × VRecord)) :
    check_hwid_duplicate h uid d = [] ↔
      ∀ e ∈ d, e.1 ≠ uid → e.2.hwid ≠ h := by
  simp [check_hwid_duplicate, List.map_eq_nil_iff, List.filter_eq_nil_iff]

/-- The commit path of the pipeline: past every gate, the record is stored
under the submitter's id. -/
theorem process_commit (L : IpLib) (hash_ip : String → String) (cfg : Config)
    (sub : Submission) (s : BotState) (hm : sub.member_present = true)
    (hb : sub.discord_id ∉ s.blacklist)
    (hdup : check_hwid_duplicate sub.hwid sub.discord_id s.verification_data = [])
    (hvpn : (detect_vpn L sub.ip none).is_vpn = false) :
    (process_verification_request L hash_ip cfg sub s).1 = Outcome.verified ∧
    (process_verification_request L hash_ip cfg sub s).2.verification_data =
      dictSet sub.discord_id (mkVerificationRecord hash_ip sub)
        s.verification_data := by
  constructor <;>
    simp [process_verification_request, hm, hb, hdup, hvpn,
      create_user_profile]

/-- The duplicate path of the pipeline: a nonempty duplicate list flags and
leaves the state untouched. -/
theorem process_duplicate (L : IpLib) (hash_ip : String → String)
    (cfg : Config) (sub : Submission) (s : BotState)
    (hm : sub.member_present = true) (hb : sub.discord_id ∉ s.blacklist)
    (hd : check_hwid_duplicate sub.hwid sub.discord_id s.verification_data ≠ []) :
    (process_verification_request L hash_ip cfg sub s).1 =
      Outcome.duplicateHwid
        (check_hwid_duplicate sub.hwid sub.discord_id s.verification_data) ∧
    (process_verification_request L hash_ip cfg sub s).2 = s := by
  have hne : (check_hwid_duplicate sub.hwid sub.discord_id
      s.verification_data).isEmpty = false := by
    cases hc : check_hwid_duplicate sub.hwid sub.discord_id s.verification_data with
    | nil => exact absurd hc hd
    | cons a t => rfl
  constructor <;> simp [process_verification_request, hm, hb, hne]

def c7_sub : Submission :=
  { discord_id := "u1", hwid := "h1", ip := "999.1.2.3",
    member_present := true, user_name := "alice",
    user_discriminator := "0001", user_display_name := "Alice",
    guild_id := "g1", guild_name := "Guild", time := "t0" }

/-- C7 counterexample: a submission whose IP string does not parse is not
rejected — the pipeline reaches the commit path and a VerificationRecord
is created for it. -/
theorem C7_counterexample :
    is_valid_ip ipv4Lib c7_sub.ip = false ∧
    (process_verification_request ipv4Lib (fun x => x) defaultConfig c7_sub
        emptyState).1 = Outcome.verified ∧
    alookup "u1" (process_verification_request ipv4Lib (fun x => x)
        defaultConfig c7_sub emptyState).2.verification_data =
      some (mkVerificationRecord (fun x => x) c7_sub) := by
  decide

/-- C7 amended: a malformed IP is rejected only by the IP-ban registry
(`ban_ip` returns false and changes nothing); the verification pipeline
instead scores it as non-VPN with the reason `Invalid IP format` and
proceeds to create the VerificationRecord for the submission. -/
theorem C7_amended_malformed_ip (L : IpLib) (hash_ip : String → String)
    (cfg : Config) (sub : Submission) (s : BotState)
    (hm : sub.member_present = true) (hb : sub.discord_id ∉ s.blacklist)
    (hdup : check_hwid_duplicate sub.hwid sub.discord_id s.verification_data = [])
    (hbad : L.parse sub.ip = none) :
    detect_vpn L sub.ip none =
      { is_vpn := false, confidence := 0,
        reasons := ["Invalid IP format"], method := "basic" } ∧
    (process_verification_request L hash_ip cfg sub s).1 = Outcome.verified ∧
    alookup sub.discord_id
        (process_verification_request L hash_ip cfg sub s).2.verification_data =
      some (mkVerificationRecord hash_ip sub) ∧
    (∀ reason actor now, ban_ip L sub.ip reason actor now s = (false, s)) := by
  have hvd : detect_vpn L sub.ip none =
      { is_vpn := false, confidence := 0,
        reasons := ["Invalid IP format"], method := "basic" } := by
    simp [detect_vpn, hbad]
  have hvpn : (detect_vpn L sub.ip none).is_vpn = false := by rw [hvd]
  have hc := process_commit L hash_ip cfg sub s hm hb hdup hvpn
  refine ⟨hvd, hc.1, ?_, ?_⟩
  · rw [hc.2]
    exact alookup_dictSet_self _ _ _
  · intro reason actor now
    simp [ban_ip, is_valid_ip, hbad]

/-- Witness for the amended C7 at the unparsable address 999.1.2.3. -/
theorem C7_witness :
    c7_sub.member_present = true ∧
    c7_sub.discord_id ∉ emptyState.blacklist ∧
    check_hwid_duplicate c7_sub.hwid c7_sub.discord_id
      emptyState.verification_data = [] ∧
    ipv4Lib.parse c7_sub.ip = none ∧
    (detect_vpn ipv4Lib c7_sub.ip none =
        { is_vpn := false, confidence := 0,
          reasons := ["Invalid IP format"], method := "basic" } ∧
      (process_verification_request ipv4Lib (fun x => x) defaultConfig c7_sub
          emptyState).1 = Outcome.verified ∧
      alookup c7_sub.discord_id
          (process_verification_request ipv4Lib (fun x => x) defaultConfig
            c7_sub emptyState).2.verification_data =
        some (mkVerificationRecord (fun x => x) c7_sub) ∧
      (∀ reason actor now,
        ban_ip ipv4Lib c7_sub.ip reason actor now emptyState =
          (false, emptyState))) :=
  ⟨rfl, by decide, rfl, by decide,
    C7_amended_malformed_ip ipv4Lib (fun x => x) defaultConfig c7_sub
      emptyState rfl (by decide) rfl (by decide)⟩

/-- No two stored records (distinct keys) share a hwid. -/
def HwidUnique (d : List (String × VRecord)) : Prop :=
  d.Pairwise (fun a b => a.1 ≠ b.1 ∧ a.2.hwid ≠ b.2.hwid)

theorem hwidUnique_dictSet (d : List (String × VRecord)) (uid : String)
    (rec0 : VRecord) (h : HwidUnique d)
    (hno : ∀ e ∈ d, e.1 ≠ uid → e.2.hwid ≠ rec0.hwid) :
    HwidUnique (dictSet uid rec0 d) := by
  induction d with
  | nil => simp [HwidUnique, dictSet]
  | cons e rest ih =>
      obtain ⟨ek, ev⟩ := e
      unfold HwidUnique at h ⊢
      rw [List.pairwise_cons] at h
      obtain ⟨hhead, htail⟩ := h
      by_cases hk : ek = uid
      · subst hk
        have hset : dictSet ek rec0 ((ek, ev) :: rest) = (ek, rec0) :: rest := by
          simp [dictSet]
        rw [hset, List.pairwise_cons]
        refine ⟨?_, htail⟩
        intro e' he'
        refine ⟨(hhead e' he').1, ?_⟩
        exact (hno e' (List.mem_cons_of_mem _ he')
          (Ne.symm (hhead e' he').1)).symm
      · simp only [dictSet, if_neg hk]
        rw [List.pairwise_cons]
        constructor
        · intro e' he'
          rcases mem_dictSet uid rec0 rest e' he' with h1 | h2
          · subst h1
            exact ⟨hk, hno (ek, ev) (List.mem_cons_self _ _) hk⟩
          · exact hhead e' h2
        · exact ih htail
            (fun e' he' hne => hno e' (List.mem_cons_of_mem _ he') hne)

theorem hwid_step (L : IpLib) (hash_ip : String → String) (cfg : Config)
    (sub : Submission) (s : BotState) (h : HwidUnique s.verification_data) :
    HwidUnique
      (process_verification_request L hash_ip cfg sub s).2.verification_data := by
  cases hmem : sub.member_present with
  | false =>
      have hv : (process_verification_request L hash_ip cfg sub s).2.verification_data
          = s.verification_data := by
        simp [process_verification_request, hmem, verification_data_increment]
      rw [hv]; exact h
  | true =>
      by_cases hb : sub.discord_id ∈ s.blacklist
      · have hv : (process_verification_request L hash_ip cfg sub s).2 = s := by
          simp [process_verification_request, hmem, hb]
        rw [hv]; exact h
      · by_cases hd : check_hwid_duplicate sub.hwid sub.discord_id
            s.verification_data = []
        · cases hvpn : (detect_vpn L sub.ip none).is_vpn with
          | true =>
              have hv : (process_verification_request L hash_ip cfg sub
                  s).2.verification_data = s.verification_data := by
                simp [process_verification_request, hmem, hb, hd, hvpn]
              rw [hv]; exact h
          | false =>
              rw [(process_commit L hash_ip cfg sub s hmem hb hd hvpn).2]
              apply hwidUnique_dictSet _ _ _ h
              intro e he hne
              exact (check_hwid_duplicate_eq_nil sub.hwid sub.discord_id
                s.verification_data).mp hd e he hne
        · rw [(process_duplicate L hash_ip cfg sub s hmem hb hd).2]
          exact h

theorem runSubmissions_cons (L : IpLib) (hash_ip : String → String)
    (cfg : Config) (sub : Submission) (subs : List Submission) (s : BotState) :
    runSubmissions L hash_ip cfg (sub :: subs) s =
      runSubmissions L hash_ip cfg subs
        (process_verification_request L hash_ip cfg sub s).2 := rfl

theorem hwid_run (L : IpLib) (hash_ip : String → String) (cfg : Config) :
    ∀ (subs : List Submission) (s : BotState),
      HwidUnique s.verification_data →
      HwidUnique (runSubmissions L hash_ip cfg subs s).verification_data := by
  intro subs
  induction subs with
  | nil => intro s h; exact h
  | cons sub rest ih =>
      intro s h
      rw [runSubmissions_cons]
      exact ih _ (hwid_step L hash_ip cfg sub s h)

/-- C1: starting from pairwise-distinct hwids, every sequence of pipeline
runs keeps the stored hwids pairwise distinct, and a submission whose hwid
already belongs to another user's record (past the membership and
blacklist gates) is answered with the duplicate flag, no record written
and the state left exactly as it was. -/
theorem C1_hwid_uniqueness_pipeline (L : IpLib) (hash_ip : String → String)
    (cfg : Config) (s : BotState) (hinv : HwidUnique s.verification_data) :
    (∀ subs : List Submission,
        HwidUnique (runSubmissions L hash_ip cfg subs s).verification_data) ∧
    (∀ sub : Submission, sub.member_present = true →
        sub.discord_id ∉ s.blacklist →
        (∃ e ∈ s.verification_data,
            e.1 ≠ sub.discord_id ∧ e.2.hwid = sub.hwid) →
        (process_verification_request L hash_ip cfg sub s).1.isDuplicateFlag =
          true ∧
        (process_verification_request L hash_ip cfg sub s).2 = s) := by
  constructor
  · intro subs
    exact hwid_run L hash_ip cfg subs s hinv
  · intro sub hm hb hex
    have hd : check_hwid_duplicate sub.hwid sub.discord_id
        s.verification_data ≠ [] := by
      intro hnil
      obtain ⟨e, he, hne, hhw⟩ := hex
      exact (check_hwid_duplicate_eq_nil sub.hwid sub.discord_id
        s.verification_data).mp hnil e he hne hhw
    have hp := process_duplicate L hash_ip cfg sub s hm hb hd
    refine ⟨?_, hp.2⟩
    rw [hp.1]
    rfl

def c1_rec : VRecord :=
  { hwid := "hw1", ip_hash := "x", ip_raw := "8.8.8.8", verified_at := "t0",
    user_id := "u1", username := "alice#0001", user_display_name := "Alice",
    guild_id := "g", guild_name := "G" }

def c1_s : BotState := { emptyState with verification_data := [("u1", c1_rec)] }

def c1_sub : Submission :=
  { discord_id := "u2", hwid := "hw1", ip := "8.8.8.9",
    member_present := true, user_name := "bob", user_discriminator := "0002",
    user_display_name := "Bob", guild_id := "g", guild_name := "G",
    time := "t1" }

/-- Witness for C1: a second user submitting the hwid already stored for
`u1` is flagged as duplicate and the state is unchanged. -/
theorem C1_witness :
    HwidUnique c1_s.verification_data ∧
    c1_sub.member_present = true ∧
    c1_sub.discord_id ∉ c1_s.blacklist ∧
    (∃ e ∈ c1_s.verification_data,
        e.1 ≠ c1_sub.discord_id ∧ e.2.hwid = c1_sub.hwid) ∧
    ((process_verification_request ipv4Lib (fun x => x) defaultConfig c1_sub
        c1_s).1.isDuplicateFlag = true ∧
      (process_verification_request ipv4Lib (fun x => x) defaultConfig c1_sub
        c1_s).2 = c1_s) := by
  have hu : HwidUnique c1_s.verification_data := by
    simp [HwidUnique, c1_s]
  have hb : c1_sub.discord_id ∉ c1_s.blacklist := by decide
  have hex : ∃ e ∈ c1_s.verification_data,
      e.1 ≠ c1_sub.discord_id ∧ e.2.hwid = c1_sub.hwid :=
    ⟨("u1", c1_rec), by simp [c1_s], by decide, rfl⟩
  exact ⟨hu, rfl, hb, hex,
    (C1_hwid_uniqueness_pipeline ipv4Lib (fun x => x) defaultConfig c1_s
      hu).2 c1_sub rfl hb hex⟩

end Wasd
